import Mathlib

/-!
  Verification development for the bruin-ball baseball mini-game
  (src/main-scene.js).  The physical simulation and collision subsystem is
  embedded shallowly: machine numbers become exact rationals, the mutable
  scene object becomes explicit state records, and the per-frame methods
  become pure functions translated statement by statement from the source.
-/

namespace BruinBall

/-! ## Fixed-step simulator clock

  Embedding of the time bookkeeping of Final_Project.simulate
  (src/main-scene.js lines 358-384).  The constructor (lines 133-143)
  initializes time_accumulator = 0, time_scale = 1, t = 0, dt = 1/20,
  steps_taken = 0.  The while loop advances the game world (update_state
  plus Body.advance on every body); the world is carried as an abstract
  type W with a step function, since the loop control depends only on the
  clock fields. -/

structure Clock where
  time_accumulator : ℚ
  t : ℚ
  steps_taken : ℕ
deriving Repr, DecidableEq

/-- Math.sign on rationals, as used at lines 375-376. -/
def jsSign (x : ℚ) : ℚ := if 0 < x then 1 else if x < 0 then -1 else 0

/-- The while loop of simulate (lines 369-378), with an explicit fuel
  bound on the number of iterations considered.  Returns the final
  clock-and-world pair together with the number of loop iterations
  actually executed.  The loop body performs, in source order:
  update_state(dt) and advance(dt) on every body (the abstract world
  step), then t += sign(frame_time)*dt, time_accumulator -=
  sign(frame_time)*dt, steps_taken++. -/
def simLoop (dt sgn : ℚ) {W : Type} (stepWorld : W → W) :
    ℕ → Clock × W → (Clock × W) × ℕ
  | 0, cw => (cw, 0)
  | n + 1, cw =>
    if dt ≤ |cw.1.time_accumulator| then
      let w' := stepWorld cw.2
      let c' : Clock :=
        ⟨cw.1.time_accumulator - sgn * dt, cw.1.t + sgn * dt,
          cw.1.steps_taken + 1⟩
      let r := simLoop dt sgn stepWorld n (c', w')
      (r.1, r.2 + 1)
    else (cw, 0)

/-- Final_Project.simulate (lines 358-384): scale the frame time by
  time_scale, clamp its contribution to the accumulator at 0.1, run the
  catch-up loop, then compute alpha = time_accumulator / dt and blend
  every body at that alpha.  Result: final clock and blended world, the
  number of fixed steps executed this call, and the alpha that was passed
  to the blend_state calls. -/
def simulate {W : Type} (stepWorld : W → W) (blendWorld : ℚ → W → W)
    (time_scale dt : ℚ) (fuel : ℕ) (frame_time : ℚ) (c : Clock) (w : W) :
    (Clock × W) × ℕ × ℚ :=
  let ft := time_scale * frame_time
  let c0 : Clock := { c with time_accumulator := c.time_accumulator + min ft 0.1 }
  let r := simLoop dt (jsSign ft) stepWorld fuel (c0, w)
  let alpha := r.1.1.time_accumulator / dt
  ((r.1.1, blendWorld alpha r.1.2), r.2, alpha)

/-- When the accumulator is already below dt (and nonnegative), the loop
  exits immediately, whatever the fuel and sign. -/
lemma simLoop_stop {W : Type} (stepWorld : W → W) (dt sgn : ℚ) (n : ℕ)
    (c : Clock) (w : W) (h0 : 0 ≤ c.time_accumulator)
    (h : c.time_accumulator < dt) :
    simLoop dt sgn stepWorld n (c, w) = ((c, w), 0) := by
  cases n with
  | zero => rfl
  | succ m =>
      unfold simLoop
      rw [if_neg]
      rw [abs_of_nonneg h0]
      linarith

/-- With forward time (sign 1) and accumulator in [dt, 2 dt), the loop
  runs exactly one iteration, given at least one unit of fuel. -/
lemma simLoop_one_step {W : Type} (stepWorld : W → W) (dt : ℚ) (hdt : 0 < dt)
    (n : ℕ) (hn : 1 ≤ n) (c : Clock) (w : W)
    (hlo : dt ≤ c.time_accumulator) (hhi : c.time_accumulator < 2 * dt) :
    simLoop dt 1 stepWorld n (c, w) =
      ((⟨c.time_accumulator - dt, c.t + dt, c.steps_taken + 1⟩,
        stepWorld w), 1) := by
  cases n with
  | zero => omega
  | succ m =>
      have h0 : 0 ≤ c.time_accumulator := le_trans hdt.le hlo
      have habs : dt ≤ |c.time_accumulator| := by rwa [abs_of_nonneg h0]
      have hstop := simLoop_stop stepWorld dt 1 m
        ⟨c.time_accumulator - 1 * dt, c.t + 1 * dt, c.steps_taken + 1⟩
        (stepWorld w)
        (by show (0 : ℚ) ≤ c.time_accumulator - 1 * dt; linarith)
        (by show c.time_accumulator - 1 * dt < dt; linarith)
      simp only [simLoop, if_pos habs, hstop]
      norm_num

/-- With forward time and accumulator in [2 dt, 3 dt), the loop runs
  exactly two iterations, given at least two units of fuel. -/
lemma simLoop_two_steps {W : Type} (stepWorld : W → W) (dt : ℚ) (hdt : 0 < dt)
    (n : ℕ) (hn : 2 ≤ n) (c : Clock) (w : W)
    (hlo : 2 * dt ≤ c.time_accumulator) (hhi : c.time_accumulator < 3 * dt) :
    simLoop dt 1 stepWorld n (c, w) =
      ((⟨c.time_accumulator - 2 * dt, c.t + 2 * dt, c.steps_taken + 2⟩,
        stepWorld (stepWorld w)), 2) := by
  cases n with
  | zero => omega
  | succ m =>
      have h0 : 0 ≤ c.time_accumulator := by linarith
      have habs : dt ≤ |c.time_accumulator| := by
        rw [abs_of_nonneg h0]; linarith
      have hone := simLoop_one_step stepWorld dt hdt m (by omega)
        ⟨c.time_accumulator - 1 * dt, c.t + 1 * dt, c.steps_taken + 1⟩
        (stepWorld w)
        (by show dt ≤ c.time_accumulator - 1 * dt; linarith)
        (by show c.time_accumulator - 1 * dt < 2 * dt; linarith)
      simp only [simLoop, if_pos habs, hone]
      refine Prod.ext ?_ rfl
      refine Prod.ext ?_ rfl
      show (⟨c.time_accumulator - 1 * dt - dt, c.t + 1 * dt + dt,
        c.steps_taken + 1 + 1⟩ : Clock) =
        ⟨c.time_accumulator - 2 * dt, c.t + 2 * dt, c.steps_taken + 2⟩
      congr 1 <;> ring

/-- Core properties of one simulate call at the configured dt = 1/20 and
  time_scale = 1, starting from an accumulator in [0, dt) with a
  nonnegative frame time: at most two loop iterations, steps_taken grows
  by exactly the iteration count, the final accumulator is back in
  [0, dt) (so the while loop genuinely exited within the fuel), and the
  alpha handed to the blend_state calls lies in [0, 1). -/
lemma simulate_props {W : Type} (stepWorld : W → W) (blendWorld : ℚ → W → W)
    (fuel : ℕ) (ft : ℚ) (c : Clock) (w : W)
    (h0 : 0 ≤ c.time_accumulator) (h1 : c.time_accumulator < 1 / 20)
    (hft : 0 ≤ ft) (hfuel : 2 ≤ fuel) :
    (simulate stepWorld blendWorld 1 (1 / 20) fuel ft c w).2.1 ≤ 2 ∧
    (simulate stepWorld blendWorld 1 (1 / 20) fuel ft c w).1.1.steps_taken =
      c.steps_taken + (simulate stepWorld blendWorld 1 (1 / 20) fuel ft c w).2.1 ∧
    0 ≤ (simulate stepWorld blendWorld 1 (1 / 20) fuel ft c w).1.1.time_accumulator ∧
    (simulate stepWorld blendWorld 1 (1 / 20) fuel ft c w).1.1.time_accumulator < 1 / 20 ∧
    0 ≤ (simulate stepWorld blendWorld 1 (1 / 20) fuel ft c w).2.2 ∧
    (simulate stepWorld blendWorld 1 (1 / 20) fuel ft c w).2.2 < 1 := by
  have hclamp : (0 : ℚ) ≤ min ft 0.1 := le_min hft (by norm_num)
  have hclamp2 : min ft (0.1 : ℚ) ≤ 0.1 := min_le_right _ _
  set a0 : ℚ := c.time_accumulator + min (1 * ft) 0.1 with ha0
  have ha0eq : a0 = c.time_accumulator + min ft 0.1 := by rw [ha0, one_mul]
  have ha0lo : 0 ≤ a0 := by rw [ha0eq]; linarith
  have ha0hi : a0 < 3 / 20 := by rw [ha0eq]; norm_num; linarith
  simp only [simulate]
  rcases lt_or_le a0 (1 / 20) with hcase | hge1
  · -- zero iterations
    have hstop := simLoop_stop stepWorld (1 / 20) (jsSign (1 * ft)) fuel
      ⟨a0, c.t, c.steps_taken⟩ w (by show (0:ℚ) ≤ a0; exact ha0lo)
      (by show a0 < 1 / 20; exact hcase)
    rw [show ({ c with time_accumulator := c.time_accumulator + min (1 * ft) 0.1 } : Clock)
        = ⟨a0, c.t, c.steps_taken⟩ from rfl, hstop]
    refine ⟨by norm_num, by norm_num, ha0lo, hcase, ?_, ?_⟩
    · show (0 : ℚ) ≤ a0 / (1 / 20)
      positivity
    · show a0 / (1 / 20) < 1
      rw [div_lt_one (by norm_num)]
      exact hcase
  · -- at least dt accumulated, so the frame time was positive and the
    -- sign is 1
    have hpos : 0 < ft := by
      by_contra hle
      push_neg at hle
      have : ft = 0 := le_antisymm hle hft
      rw [ha0eq, this] at hge1
      norm_num at hge1
      linarith
    have hsgn : jsSign (1 * ft) = 1 := by
      simp only [jsSign, one_mul, if_pos hpos]
    rw [show ({ c with time_accumulator := c.time_accumulator + min (1 * ft) 0.1 } : Clock)
        = ⟨a0, c.t, c.steps_taken⟩ from rfl, hsgn]
    rcases lt_or_le a0 (2 / 20) with hcase2 | hge2
    · have hone := simLoop_one_step stepWorld (1 / 20) (by norm_num) fuel
        (by omega) ⟨a0, c.t, c.steps_taken⟩ w
        (by show (1 : ℚ) / 20 ≤ a0; exact hge1)
        (by show a0 < 2 * (1 / 20); linarith)
      rw [hone]
      refine ⟨by norm_num, by norm_num, ?_, ?_, ?_, ?_⟩
      · show (0 : ℚ) ≤ a0 - 1 / 20
        linarith
      · show a0 - 1 / 20 < 1 / 20
        linarith
      · show (0 : ℚ) ≤ (a0 - 1 / 20) / (1 / 20)
        have : (0 : ℚ) ≤ a0 - 1 / 20 := by linarith
        positivity
      · show (a0 - 1 / 20) / (1 / 20) < 1
        rw [div_lt_one (by norm_num)]
        linarith
    · have htwo := simLoop_two_steps stepWorld (1 / 20) (by norm_num) fuel
        hfuel ⟨a0, c.t, c.steps_taken⟩ w
        (by show 2 * (1 / 20 : ℚ) ≤ a0; linarith)
        (by show a0 < 3 * (1 / 20 : ℚ); linarith)
      rw [htwo]
      refine ⟨by norm_num, by norm_num, ?_, ?_, ?_, ?_⟩
      · show (0 : ℚ) ≤ a0 - 2 * (1 / 20)
        linarith
      · show a0 - 2 * (1 / 20) < 1 / 20
        linarith
      · show (0 : ℚ) ≤ (a0 - 2 * (1 / 20)) / (1 / 20)
        have : (0 : ℚ) ≤ a0 - 2 * (1 / 20) := by linarith
        positivity
      · show (a0 - 2 * (1 / 20)) / (1 / 20) < 1
        rw [div_lt_one (by norm_num)]
        linarith

/-- Clock states reachable by sequences of simulate calls from the
  constructor state, each with nonnegative frame_time and enough fuel for
  the loop to complete (two iterations always suffice, by
  simulate_props).  The world type is irrelevant to the clock, so Unit is
  used. -/
inductive ClockReach : Clock → Prop where
  | init : ClockReach ⟨0, 0, 0⟩
  | step {c : Clock} {ft : ℚ} {fuel : ℕ} :
      ClockReach c → 0 ≤ ft → 2 ≤ fuel →
      ClockReach
        (simulate (fun u : Unit => u) (fun _ u => u) 1 (1 / 20) fuel ft c ()).1.1

/-- Every reachable clock keeps its accumulator in [0, dt). -/
lemma clockReach_invariant {c : Clock} (h : ClockReach c) :
    0 ≤ c.time_accumulator ∧ c.time_accumulator < 1 / 20 := by
  induction h with
  | init => norm_num
  | @step c ft fuel hc hft hfuel ih =>
      have h := simulate_props (fun u : Unit => u) (fun _ u => u) fuel ft c ()
        ih.1 ih.2 hft hfuel
      exact ⟨h.2.2.1, h.2.2.2.1⟩

/-- Claim C1: starting from the initial simulator state (time_accumulator
  zero, dt = 1/20, per-frame clamp 0.1) and for every sequence of
  simulate calls with nonnegative frame_time arguments, no single call to
  simulate executes more than 2 iterations of the fixed-step loop;
  equivalently, steps_taken increases by at most 2 per call, regardless
  of how large frame_time is.  The final conjunct shows the accumulator
  ends below dt, so the while loop genuinely exited within the given
  fuel and the counted iterations are those of the unbounded source
  loop. -/
theorem C1_spiral_of_death_bound {W : Type} (stepWorld : W → W)
    (blendWorld : ℚ → W → W) (fuel : ℕ) (ft : ℚ) (c : Clock) (w : W)
    (hreach : ClockReach c) (hft : 0 ≤ ft) (hfuel : 2 ≤ fuel) :
    (simulate stepWorld blendWorld 1 (1 / 20) fuel ft c w).2.1 ≤ 2 ∧
    (simulate stepWorld blendWorld 1 (1 / 20) fuel ft c w).1.1.steps_taken =
      c.steps_taken + (simulate stepWorld blendWorld 1 (1 / 20) fuel ft c w).2.1 ∧
    (simulate stepWorld blendWorld 1 (1 / 20) fuel ft c w).1.1.time_accumulator < 1 / 20 := by
  obtain ⟨h0, h1⟩ := clockReach_invariant hreach
  have h := simulate_props stepWorld blendWorld fuel ft c w h0 h1 hft hfuel
  exact ⟨h.1, h.2.1, h.2.2.2.1⟩

/-- Witness for C1: a concrete huge frame time (1000 seconds) from the
  initial state still performs at most two fixed steps. -/
theorem C1_spiral_of_death_bound_witness :
    (simulate (fun u : Unit => u) (fun _ u => u) 1 (1 / 20) 2 1000 ⟨0, 0, 0⟩ ()).2.1 ≤ 2 ∧
    (simulate (fun u : Unit => u) (fun _ u => u) 1 (1 / 20) 2 1000 ⟨0, 0, 0⟩ ()).1.1.steps_taken =
      (0 : ℕ) + (simulate (fun u : Unit => u) (fun _ u => u) 1 (1 / 20) 2 1000 ⟨0, 0, 0⟩ ()).2.1 ∧
    (simulate (fun u : Unit => u) (fun _ u => u) 1 (1 / 20) 2 1000 ⟨0, 0, 0⟩ ()).1.1.time_accumulator < 1 / 20 :=
  C1_spiral_of_death_bound (fun u : Unit => u) (fun _ u => u) 2 1000 ⟨0, 0, 0⟩ ()
    ClockReach.init (by norm_num) le_rfl

/-- Claim C10: if time_accumulator lies in [0, dt) before a simulate call
  and frame_time is nonnegative, then after the stepping loop
  time_accumulator again lies in [0, dt); consequently the interpolation
  factor alpha = time_accumulator / dt passed to every blend_state call
  is in [0, 1), hence within the documented precondition [0, 1]. -/
theorem C10_alpha_unit_interval {W : Type} (stepWorld : W → W)
    (blendWorld : ℚ → W → W) (fuel : ℕ) (ft : ℚ) (c : Clock) (w : W)
    (h0 : 0 ≤ c.time_accumulator) (h1 : c.time_accumulator < 1 / 20)
    (hft : 0 ≤ ft) (hfuel : 2 ≤ fuel) :
    0 ≤ (simulate stepWorld blendWorld 1 (1 / 20) fuel ft c w).1.1.time_accumulator ∧
    (simulate stepWorld blendWorld 1 (1 / 20) fuel ft c w).1.1.time_accumulator < 1 / 20 ∧
    0 ≤ (simulate stepWorld blendWorld 1 (1 / 20) fuel ft c w).2.2 ∧
    (simulate stepWorld blendWorld 1 (1 / 20) fuel ft c w).2.2 < 1 :=
  (simulate_props stepWorld blendWorld fuel ft c w h0 h1 hft hfuel).2.2

/-- Witness for C10: a concrete call with accumulator 1/40 and frame time
  0.07 lands back in the invariant with alpha in [0, 1). -/
theorem C10_alpha_unit_interval_witness :
    0 ≤ (simulate (fun u : Unit => u) (fun _ u => u) 1 (1 / 20) 2 (7 / 100) ⟨1 / 40, 0, 0⟩ ()).1.1.time_accumulator ∧
    (simulate (fun u : Unit => u) (fun _ u => u) 1 (1 / 20) 2 (7 / 100) ⟨1 / 40, 0, 0⟩ ()).1.1.time_accumulator < 1 / 20 ∧
    0 ≤ (simulate (fun u : Unit => u) (fun _ u => u) 1 (1 / 20) 2 (7 / 100) ⟨1 / 40, 0, 0⟩ ()).2.2 ∧
    (simulate (fun u : Unit => u) (fun _ u => u) 1 (1 / 20) 2 (7 / 100) ⟨1 / 40, 0, 0⟩ ()).2.2 < 1 :=
  C10_alpha_unit_interval (fun u : Unit => u) (fun _ u => u) 2 (7 / 100)
    ⟨1 / 40, 0, 0⟩ () (by norm_num) (by norm_num) (by norm_num) le_rfl

/-! ## Body: rigid object state and integration primitives

  Embedding of class Body (src/main-scene.js lines 36-130).  Positions
  are rational triples, poses are 4x4 homogeneous rational matrices.  The
  library function Mat4.rotation(angle, axis) builds a rotation matrix
  with trigonometric entries; the matrix library lives in the excluded
  renderer framework (resources.js), so that constructor is carried as an
  abstract parameter rotGen, and the Body operations are proved for every
  choice of it. -/

abbrev V3 := Fin 3 → ℚ

abbrev Mat4 := Matrix (Fin 4) (Fin 4) ℚ

/-- Homogeneous translation matrix, Mat4.translation of the framework. -/
def mat4Translation (v : V3) : Mat4 :=
  !![1, 0, 0, v 0; 0, 1, 0, v 1; 0, 0, 1, v 2; 0, 0, 0, 1]

/-- Homogeneous scale matrix, Mat4.scale of the framework. -/
def mat4Scale (v : V3) : Mat4 :=
  !![v 0, 0, 0, 0; 0, v 1, 0, 0; 0, 0, v 2, 0; 0, 0, 0, 1]

/-- Vec.to4 with homogeneous coordinate w. -/
def to4 (p : V3) (w : ℚ) : Fin 4 → ℚ := ![p 0, p 1, p 2, w]

/-- Vec.to3, dropping the homogeneous coordinate. -/
def to3 (q : Fin 4 → ℚ) : V3 := ![q 0, q 1, q 2]

/-- Vec.dot for 3-vectors. -/
def dot3 (a b : V3) : ℚ := a 0 * b 0 + a 1 * b 1 + a 2 * b 2

/-- Vec.mix: componentwise linear interpolation x.mix(y, s). -/
def vmix (x y : V3) (s : ℚ) : V3 := fun i => (1 - s) * x i + s * y i

/-- Snapshot of the two interpolated fields, the shape of this.previous. -/
structure BState where
  center : V3
  rotation : Mat4

/-- The per-body simulated state (Body, lines 36-130).  The id field
  models JavaScript object identity: distinct Body objects in the bodies
  list carry distinct ids, and the this == b comparison of
  check_if_colliding is id equality.  The inverse field is the cached
  inverse pose assigned by the caller in update_state (line 2499). -/
structure Body where
  id : ℕ
  size : V3
  center : V3
  rotation : Mat4
  previous : BState
  linear_velocity : V3
  angular_velocity : ℚ
  spin_axis : V3
  drawn_location : Mat4
  inverse : Mat4

/-- Body.emplace (lines 43-67): decompose the placement matrix into a
  center (its translation column) and a residual rotation, set previous
  to the same values, store the placement as drawn_location, and assign
  the velocities. -/
def Body.emplace (b : Body) (location_matrix : Mat4) (lv : V3)
    (av : ℚ) (axis : V3) : Body :=
  let center := to3 (location_matrix.mulVec ![0, 0, 0, 1])
  let rotation := mat4Translation (fun i => -center i) * location_matrix
  { b with
    center := center
    rotation := rotation
    previous := ⟨center, rotation⟩
    drawn_location := location_matrix
    linear_velocity := lv
    angular_velocity := av
    spin_axis := axis }

/-- Body.advance (lines 68-81): save the current state into previous,
  forward-Euler the center, and pre-multiply the rotation by
  rotGen(time_amount * angular_velocity, spin_axis). -/
def Body.advance (rotGen : ℚ → V3 → Mat4) (time_amount : ℚ) (b : Body) :
    Body :=
  { b with
    previous := ⟨b.center, b.rotation⟩
    center := fun i => b.center i + b.linear_velocity i * time_amount
    rotation := rotGen (time_amount * b.angular_velocity) b.spin_axis * b.rotation }

/-- Iterated Body.advance: the state after n fixed steps. -/
def Body.advanceN (rotGen : ℚ → V3 → Mat4) (time_amount : ℚ) :
    ℕ → Body → Body
  | 0, b => b
  | n + 1, b => Body.advance rotGen time_amount (Body.advanceN rotGen time_amount n b)

/-- Body.blend_rotation (lines 82-91): naive rowwise linear blend of the
  previous and current rotation matrices. -/
def Body.blend_rotation (b : Body) (alpha : ℚ) : Mat4 :=
  Matrix.of fun i j => (1 - alpha) * b.previous.rotation i j + alpha * b.rotation i j

/-- Body.blend_state (lines 92-101): compose the interpolated translation,
  the blended rotation, and the fixed size scale into drawn_location. -/
def Body.blend_state (b : Body) (alpha : ℚ) : Body :=
  { b with
    drawn_location :=
      mat4Translation (vmix b.previous.center b.center alpha) *
        b.blend_rotation alpha * mat4Scale b.size }

/-- Claim C4: for every Body and every dt, advance(dt) first stores the
  current center and rotation into previous and then sets center to
  center + linear_velocity * dt and pre-multiplies the rotation by a
  rotation of angle angular_velocity * dt about spin_axis; consequently,
  for all dt > 0 and any sequence of advance calls after an emplace,
  previous after step n+1 equals the state after step n (one-step lag
  invariant). -/
theorem C4_advance_one_step_lag (rotGen : ℚ → V3 → Mat4) (dt : ℚ)
    (hdt : 0 < dt) :
    (∀ b : Body,
      (b.advance rotGen dt).previous = ⟨b.center, b.rotation⟩ ∧
      (b.advance rotGen dt).center =
        (fun i => b.center i + b.linear_velocity i * dt) ∧
      (b.advance rotGen dt).rotation =
        rotGen (dt * b.angular_velocity) b.spin_axis * b.rotation) ∧
    ∀ (b0 : Body) (loc : Mat4) (lv : V3) (av : ℚ) (axis : V3) (n : ℕ),
      (Body.advanceN rotGen dt (n + 1) (b0.emplace loc lv av axis)).previous =
        ⟨(Body.advanceN rotGen dt n (b0.emplace loc lv av axis)).center,
          (Body.advanceN rotGen dt n (b0.emplace loc lv av axis)).rotation⟩ := by
  refine ⟨fun b => ⟨rfl, rfl, rfl⟩, fun b0 loc lv av axis n => rfl⟩

/-- Witness for C4: the one-step lag at dt = 1, a trivial rotation
  generator, and a concrete emplaced body. -/
theorem C4_advance_one_step_lag_witness :
    (Body.advanceN (fun _ _ => (1 : Mat4)) 1 1
        ((⟨0, ![1, 1, 1], ![0, 0, 0], 1, ⟨![0, 0, 0], 1⟩, ![0, 0, 0], 0,
          ![0, 1, 0], 1, 1⟩ : Body).emplace 1 ![2, 3, 4] 5 ![0, 1, 0])).previous =
      ⟨(Body.advanceN (fun _ _ => (1 : Mat4)) 1 0
          ((⟨0, ![1, 1, 1], ![0, 0, 0], 1, ⟨![0, 0, 0], 1⟩, ![0, 0, 0], 0,
            ![0, 1, 0], 1, 1⟩ : Body).emplace 1 ![2, 3, 4] 5 ![0, 1, 0])).center,
        (Body.advanceN (fun _ _ => (1 : Mat4)) 1 0
          ((⟨0, ![1, 1, 1], ![0, 0, 0], 1, ⟨![0, 0, 0], 1⟩, ![0, 0, 0], 0,
            ![0, 1, 0], 1, 1⟩ : Body).emplace 1 ![2, 3, 4] 5 ![0, 1, 0])).rotation⟩ :=
  (C4_advance_one_step_lag (fun _ _ => (1 : Mat4)) 1 one_pos).2
    ⟨0, ![1, 1, 1], ![0, 0, 0], 1, ⟨![0, 0, 0], 1⟩, ![0, 0, 0], 0,
      ![0, 1, 0], 1, 1⟩ 1 ![2, 3, 4] 5 ![0, 1, 0] 0

/-- Claim C8: for every Body after at least one advance, blend_state(0)
  produces a drawn pose equal to the pose composed from previous.center
  and previous.rotation (times the fixed size scale), and blend_state(1)
  produces a drawn pose composed from the current center and rotation
  (times the same scale): the interpolation endpoints are the two stored
  states. -/
theorem C8_blend_state_endpoints (rotGen : ℚ → V3 → Mat4) (dt : ℚ)
    (b : Body) :
    ((b.advance rotGen dt).blend_state 0).drawn_location =
      mat4Translation (b.advance rotGen dt).previous.center *
        (b.advance rotGen dt).previous.rotation *
        mat4Scale (b.advance rotGen dt).size ∧
    ((b.advance rotGen dt).blend_state 1).drawn_location =
      mat4Translation (b.advance rotGen dt).center *
        (b.advance rotGen dt).rotation *
        mat4Scale (b.advance rotGen dt).size := by
  have hmix0 : ∀ x y : V3, vmix x y 0 = x := by
    intro x y
    funext i
    simp [vmix]
  have hmix1 : ∀ x y : V3, vmix x y 1 = y := by
    intro x y
    funext i
    simp [vmix]
  have hrot0 : ∀ c : Body, c.blend_rotation 0 = c.previous.rotation := by
    intro c
    ext i j
    simp [Body.blend_rotation]
  have hrot1 : ∀ c : Body, c.blend_rotation 1 = c.rotation := by
    intro c
    ext i j
    simp [Body.blend_rotation]
  constructor
  · show mat4Translation (vmix _ _ 0) * Body.blend_rotation _ 0 * mat4Scale _ = _
    rw [hmix0, hrot0]
  · show mat4Translation (vmix _ _ 1) * Body.blend_rotation _ 1 * mat4Scale _ = _
    rw [hmix1, hrot1]

/-! ## Collider and the pairwise collision test

  Embedding of the intersection tests and Body.check_if_colliding
  (src/main-scene.js lines 102-129) and of the collider configuration
  record built in the constructor (lines 144-148). -/

/-- Collider configuration: an intersection test, the sample point cloud
  (the vertex positions of the tessellated sphere), and a margin. -/
structure Collider where
  intersect_test : V3 → ℚ → Bool
  points : List V3
  leeway : ℚ

/-- Body.intersect_cube (lines 105-107): every coordinate within the
  margin-widened unit cube. -/
def intersect_cube (p : V3) (margin : ℚ) : Bool :=
  decide (∀ i : Fin 3, -1 - margin ≤ p i ∧ p i ≤ 1 + margin)

/-- Body.intersect_sphere (lines 108-110): squared norm below
  1 + margin. -/
def intersect_sphere (p : V3) (margin : ℚ) : Bool :=
  decide (dot3 p p < 1 + margin)

/-- Body.check_if_colliding (lines 111-129): nothing collides with
  itself; otherwise transform each sample point of the collider by
  inverse(a pose) * (b pose) and test it against the volume formula with
  the configured leeway.  The method reads this.inverse, the cached
  inverse pose assigned by the caller. -/
def Body.check_if_colliding (a b : Body) (collider : Collider) : Bool :=
  if a.id = b.id then false
  else
    let T := a.inverse * b.drawn_location
    collider.points.any fun p =>
      collider.intersect_test (to3 (T.mulVec (to4 p 1))) collider.leeway

/-- Claim C5: check_if_colliding(a, b, collider) is a pure predicate on
  the body states: it returns false whenever a and b are the same body,
  and otherwise, given that a.inverse caches the inverse of the a pose,
  returns true if and only if at least one vertex p of the collider
  sample point cloud, transformed by inverse(a pose) * (b pose),
  satisfies the configured intersection test with the collider leeway;
  for the active sphere test the test holds exactly when the squared norm
  of the transformed point is below 1 + leeway. -/
theorem C5_check_if_colliding_spec (a b : Body) (collider : Collider) :
    (a.id = b.id → a.check_if_colliding b collider = false) ∧
    (a.inverse = a.drawn_location⁻¹ → a.id ≠ b.id →
      (a.check_if_colliding b collider = true ↔
        ∃ p ∈ collider.points,
          collider.intersect_test
            (to3 ((a.drawn_location⁻¹ * b.drawn_location).mulVec (to4 p 1)))
            collider.leeway = true)) ∧
    ∀ (p : V3) (margin : ℚ),
      intersect_sphere p margin = true ↔ dot3 p p < 1 + margin := by
  refine ⟨?_, ?_, ?_⟩
  · intro hid
    simp [Body.check_if_colliding, hid]
  · intro hinv hid
    rw [Body.check_if_colliding, if_neg hid, hinv, List.any_eq_true]
  · intro p margin
    simp [intersect_sphere]

/-- Sample identity-pose body used in the C5 witness. -/
def bodyA : Body :=
  ⟨0, ![1, 1, 1], ![0, 0, 0], 1, ⟨![0, 0, 0], 1⟩, ![0, 0, 0], 0, ![0, 1, 0], 1, 1⟩

/-- A second sample body, identical to bodyA but a distinct object. -/
def bodyB : Body :=
  ⟨1, ![1, 1, 1], ![0, 0, 0], 1, ⟨![0, 0, 0], 1⟩, ![0, 0, 0], 0, ![0, 1, 0], 1, 1⟩

/-- Sphere collider with the configured leeway 0.7 and a single origin
  sample point. -/
def colliderEx : Collider := ⟨intersect_sphere, [![0, 0, 0]], 0.7⟩

/-- Witness for C5: a body is never colliding with itself, and for two
  distinct identity-pose bodies the collision result is characterized by
  the transformed sample points. -/
theorem C5_check_if_colliding_spec_witness :
    bodyA.check_if_colliding bodyA colliderEx = false ∧
    (bodyA.check_if_colliding bodyB colliderEx = true ↔
      ∃ p ∈ colliderEx.points,
        colliderEx.intersect_test
          (to3 ((bodyA.drawn_location⁻¹ * bodyB.drawn_location).mulVec (to4 p 1)))
          colliderEx.leeway = true) :=
  ⟨(C5_check_if_colliding_spec bodyA bodyA colliderEx).1 rfl,
    (C5_check_if_colliding_spec bodyA bodyB colliderEx).2.1
      (by show (1 : Mat4) = (1 : Mat4)⁻¹; rw [inv_one])
      (by show (0 : ℕ) ≠ 1; norm_num)⟩

/-! ## Game progression: phases, levels, score, pitch budget

  Embedding of the per-frame level and score bookkeeping of
  Final_Project.display (src/main-scene.js lines 1221-1284 and
  1358-1361), the constructor initialization (lines 310-355), and the
  control-panel handlers (lines 387-419).  The source compares the level
  with loose equality, under which the string values of game_level and
  the number 1 assigned by the restart handler coincide, so the level is
  an enumeration here. -/

inductive GamePhase where
  | not_started | started | game_over | game_won
deriving DecidableEq, Repr

inductive GameLevel where
  | one | two | three | four
deriving DecidableEq, Repr

structure GameProg where
  phase : GamePhase
  level : GameLevel
  score : ℕ
  target : ℕ
  pitch_count : ℤ
deriving DecidableEq, Repr

/-- One game-over conditional (the shape shared by lines 1221-1248): at
  the given level, with the score below the given target and the pitch
  count at -1, set the phase to game-over. -/
def stepGameOver (lvl : GameLevel) (tgt : ℕ) (s : GameProg) : GameProg :=
  if s.level = lvl ∧ s.score < tgt ∧ s.pitch_count = -1 then
    { s with phase := GamePhase.game_over }
  else s

/-- One level-advance conditional (lines 1250-1258 and 1269-1277): at the
  given level, with the score at or above the target and the pitch count
  equal to the guard value (-1 for level one, 0 for level three), move to
  the next level and reset score and pitch budget. -/
def stepAdvance (lvl nxt : GameLevel) (tgt : ℕ) (pcGuard : ℤ)
    (s : GameProg) : GameProg :=
  if s.level = lvl ∧ tgt ≤ s.score ∧ s.pitch_count = pcGuard then
    { s with level := nxt, score := 0, pitch_count := 10 }
  else s

/-- One win conditional (lines 1259-1268 and 1278-1284): at the given
  level, with the score at or above the target and pitches exhausted,
  set the phase to won. -/
def stepWin (lvl : GameLevel) (tgt : ℕ) (s : GameProg) : GameProg :=
  if s.level = lvl ∧ tgt ≤ s.score ∧ s.pitch_count = -1 then
    { s with phase := GamePhase.game_won }
  else s

/-- The eight sequential conditionals of lines 1221-1284, evaluated once
  per frame and in source order: the four game-over checks, then
  level-one advance, level-two win, level-three advance (guarded on
  pitch_count exactly 0; the advance to level three itself is commented
  out in the source at lines 1264-1266), and level-four win. -/
def levelUpdate (s : GameProg) : GameProg :=
  stepWin GameLevel.four 10
    (stepAdvance GameLevel.three GameLevel.four 7 0
      (stepWin GameLevel.two 5
        (stepAdvance GameLevel.one GameLevel.two 3 (-1)
          (stepGameOver GameLevel.four 10
            (stepGameOver GameLevel.three 7
              (stepGameOver GameLevel.two 5
                (stepGameOver GameLevel.one 3 s)))))))

/-- Lines 1358-1361: the displayed target for each level.  The check
  against level 5 at line 1361 can never hold for the four configured
  levels and is dropped. -/
def targetUpdate (s : GameProg) : GameProg :=
  let s := if s.level = GameLevel.two then { s with target := 5 } else s
  let s := if s.level = GameLevel.three then { s with target := 7 } else s
  let s := if s.level = GameLevel.four then { s with target := 10 } else s
  s

/-- Start Game handler (lines 388-390). -/
def startGame (s : GameProg) : GameProg := { s with phase := GamePhase.started }

/-- Restart Game handler (lines 391-398). -/
def restartGame (s : GameProg) : GameProg :=
  { s with
    phase := GamePhase.started, level := GameLevel.one, target := 3,
    score := 0, pitch_count := 10 }

/-- Home-run scoring (line 2536). -/
def scoreHomeRun (s : GameProg) : GameProg := { s with score := s.score + 1 }

/-- Pitch-budget decrement at spawn (lines 2350-2357), guarded by the
  spawn conditions that concern this record. -/
def consumePitch (s : GameProg) : GameProg :=
  if s.pitch_count > -1 ∧ s.phase = GamePhase.started then
    { s with pitch_count := s.pitch_count - 1 }
  else s

/-- Constructor state (lines 327-342): phase not-started, level one,
  score 0, target 3, ten pitches. -/
def initGame : GameProg :=
  ⟨GamePhase.not_started, GameLevel.one, 0, 3, 10⟩

/-- Game-progression states reachable from the constructor state through
  the per-frame updates and the input handlers, in any interleaving (an
  over-approximation of the schedules the real frame loop produces). -/
inductive GameReach : GameProg → Prop where
  | init : GameReach initGame
  | frame {s} : GameReach s → GameReach (levelUpdate s)
  | retarget {s} : GameReach s → GameReach (targetUpdate s)
  | start {s} : GameReach s → GameReach (startGame s)
  | restart {s} : GameReach s → GameReach (restartGame s)
  | homer {s} : GameReach s → GameReach (scoreHomeRun s)
  | pitch {s} : GameReach s → GameReach (consumePitch s)

/-- The target configured for each level (constructor line 333 and lines
  1358-1361). -/
def levelTarget : GameLevel → ℕ
  | GameLevel.one => 3
  | GameLevel.two => 5
  | GameLevel.three => 7
  | GameLevel.four => 10

/-- A game-over step whose condition fails leaves the state unchanged. -/
lemma stepGameOver_skip {l : GameLevel} {t : ℕ} {s : GameProg}
    (h : ¬(s.level = l ∧ s.score < t ∧ s.pitch_count = -1)) :
    stepGameOver l t s = s := if_neg h

/-- A game-over step only ever touches the phase. -/
lemma stepGameOver_fields (lvl : GameLevel) (tgt : ℕ) (s : GameProg) :
    (stepGameOver lvl tgt s).level = s.level ∧
    (stepGameOver lvl tgt s).score = s.score ∧
    (stepGameOver lvl tgt s).pitch_count = s.pitch_count := by
  unfold stepGameOver
  split_ifs <;> exact ⟨rfl, rfl, rfl⟩

/-- An advance step whose condition fails leaves the state unchanged. -/
lemma stepAdvance_skip {l n : GameLevel} {t : ℕ} {p : ℤ}
    {s : GameProg}
    (h : ¬(s.level = l ∧ t ≤ s.score ∧ s.pitch_count = p)) :
    stepAdvance l n t p s = s := if_neg h

/-- A win step whose condition fails leaves the state unchanged. -/
lemma stepWin_skip {l : GameLevel} {t : ℕ} {s : GameProg}
    (h : ¬(s.level = l ∧ t ≤ s.score ∧ s.pitch_count = -1)) :
    stepWin l t s = s := if_neg h

/-- A win step only ever touches the phase. -/
lemma stepWin_fields (lvl : GameLevel) (tgt : ℕ) (s : GameProg) :
    (stepWin lvl tgt s).level = s.level ∧
    (stepWin lvl tgt s).score = s.score ∧
    (stepWin lvl tgt s).pitch_count = s.pitch_count := by
  unfold stepWin
  split_ifs <;> exact ⟨rfl, rfl, rfl⟩

/-- The frame update moves the level only from one to two, or from three
  to four. -/
lemma levelUpdate_level (s : GameProg) :
    (levelUpdate s).level = s.level ∨
    (s.level = GameLevel.one ∧ (levelUpdate s).level = GameLevel.two) ∨
    (s.level = GameLevel.three ∧ (levelUpdate s).level = GameLevel.four) := by
  unfold levelUpdate
  rcases hl : s.level with _ | _ | _ | _
  · -- level one: only the first game-over and the one-to-two advance can act
    obtain ⟨e1l, e1s, e1p⟩ := stepGameOver_fields GameLevel.one 3 s
    rw [hl] at e1l
    rw [stepGameOver_skip (l := GameLevel.two) (by simp [e1l]),
      stepGameOver_skip (l := GameLevel.three) (by simp [e1l]),
      stepGameOver_skip (l := GameLevel.four) (by simp [e1l])]
    by_cases hadv : 3 ≤ s.score ∧ s.pitch_count = -1
    · right; left
      refine ⟨rfl, ?_⟩
      rw [show stepAdvance GameLevel.one GameLevel.two 3 (-1)
            (stepGameOver GameLevel.one 3 s) =
          { stepGameOver GameLevel.one 3 s with
            level := GameLevel.two, score := 0, pitch_count := 10 } from
          if_pos ⟨e1l, by rw [e1s]; exact hadv.1, by rw [e1p]; exact hadv.2⟩,
        stepWin_skip (l := GameLevel.two) (by simp),
        stepAdvance_skip (l := GameLevel.three) (by simp),
        stepWin_skip (l := GameLevel.four) (by simp)]
    · left
      rw [stepAdvance_skip (l := GameLevel.one) (by rw [e1s, e1p]; tauto),
        stepWin_skip (l := GameLevel.two) (by simp [e1l]),
        stepAdvance_skip (l := GameLevel.three) (by simp [e1l]),
        stepWin_skip (l := GameLevel.four) (by simp [e1l])]
      exact e1l
  · -- level two: only phase-touching steps can act
    left
    rw [stepGameOver_skip (l := GameLevel.one) (by simp [hl])]
    obtain ⟨e2l, e2s, e2p⟩ := stepGameOver_fields GameLevel.two 5 s
    rw [hl] at e2l
    rw [stepGameOver_skip (l := GameLevel.three) (by simp [e2l]),
      stepGameOver_skip (l := GameLevel.four) (by simp [e2l]),
      stepAdvance_skip (l := GameLevel.one) (by simp [e2l])]
    obtain ⟨w6l, w6s, w6p⟩ := stepWin_fields GameLevel.two 5
      (stepGameOver GameLevel.two 5 s)
    rw [e2l] at w6l
    rw [stepAdvance_skip (l := GameLevel.three) (by simp [w6l]),
      stepWin_skip (l := GameLevel.four) (by simp [w6l])]
    exact w6l
  · -- level three: only the third game-over and the three-to-four advance
    rw [stepGameOver_skip (l := GameLevel.one) (by simp [hl]),
      stepGameOver_skip (l := GameLevel.two) (by simp [hl])]
    obtain ⟨e3l, e3s, e3p⟩ := stepGameOver_fields GameLevel.three 7 s
    rw [hl] at e3l
    rw [stepGameOver_skip (l := GameLevel.four) (by simp [e3l]),
      stepAdvance_skip (l := GameLevel.one) (by simp [e3l]),
      stepWin_skip (l := GameLevel.two) (by simp [e3l])]
    by_cases hadv : 7 ≤ s.score ∧ s.pitch_count = 0
    · right; right
      refine ⟨rfl, ?_⟩
      rw [show stepAdvance GameLevel.three GameLevel.four 7 0
            (stepGameOver GameLevel.three 7 s) =
          { stepGameOver GameLevel.three 7 s with
            level := GameLevel.four, score := 0, pitch_count := 10 } from
          if_pos ⟨e3l, by rw [e3s]; exact hadv.1, by rw [e3p]; exact hadv.2⟩,
        stepWin_skip (l := GameLevel.four) (by simp)]
    · left
      rw [stepAdvance_skip (l := GameLevel.three) (by rw [e3s, e3p]; tauto),
        stepWin_skip (l := GameLevel.four) (by simp [e3l])]
      exact e3l
  · -- level four: only phase-touching steps can act
    left
    rw [stepGameOver_skip (l := GameLevel.one) (by simp [hl]),
      stepGameOver_skip (l := GameLevel.two) (by simp [hl]),
      stepGameOver_skip (l := GameLevel.three) (by simp [hl])]
    obtain ⟨e4l, e4s, e4p⟩ := stepGameOver_fields GameLevel.four 10 s
    rw [hl] at e4l
    rw [stepAdvance_skip (l := GameLevel.one) (by simp [e4l]),
      stepWin_skip (l := GameLevel.two) (by simp [e4l]),
      stepAdvance_skip (l := GameLevel.three) (by simp [e4l])]
    obtain ⟨w8l, w8s, w8p⟩ := stepWin_fields GameLevel.four 10
      (stepGameOver GameLevel.four 10 s)
    rw [e4l] at w8l
    exact w8l

/-- Reachable game states never leave levels one and two. -/
lemma gameReach_level {s : GameProg} (h : GameReach s) :
    s.level = GameLevel.one ∨ s.level = GameLevel.two := by
  induction h with
  | init => left; rfl
  | frame hs ih =>
      rcases levelUpdate_level _ with h1 | h2 | h3
      · rw [h1]; exact ih
      · right; exact h2.2
      · rcases ih with h | h <;> rw [h3.1] at h <;> simp at h
  | retarget hs ih =>
      simpa [targetUpdate, apply_ite GameProg.level] using ih
  | start hs ih => simpa [startGame] using ih
  | restart hs ih => left; rfl
  | homer hs ih => simpa [scoreHomeRun] using ih
  | pitch hs ih =>
      simpa [consumePitch, apply_ite GameProg.level] using ih

/-- Evaluation of the frame update at level one with pitches exhausted
  and score below target: game over. -/
lemma levelUpdate_one_fail (s : GameProg) (hl : s.level = GameLevel.one)
    (hs : s.score < 3) (hp : s.pitch_count = -1) :
    (levelUpdate s).phase = GamePhase.game_over ∧
    (levelUpdate s).level = GameLevel.one := by
  unfold levelUpdate
  rw [show stepGameOver GameLevel.one 3 s = { s with phase := GamePhase.game_over }
      from if_pos ⟨hl, hs, hp⟩,
    stepGameOver_skip (l := GameLevel.two) (by simp [hl]),
    stepGameOver_skip (l := GameLevel.three) (by simp [hl]),
    stepGameOver_skip (l := GameLevel.four) (by simp [hl]),
    stepAdvance_skip (l := GameLevel.one) (by simp [hl, hp]; omega),
    stepWin_skip (l := GameLevel.two) (by simp [hl]),
    stepAdvance_skip (l := GameLevel.three) (by simp [hl]),
    stepWin_skip (l := GameLevel.four) (by simp [hl])]
  exact ⟨rfl, hl⟩

/-- Evaluation of the frame update at level one with pitches exhausted
  and score at target: advance to level two with score and pitch budget
  reset, phase untouched. -/
lemma levelUpdate_one_advance (s : GameProg) (hl : s.level = GameLevel.one)
    (hs : 3 ≤ s.score) (hp : s.pitch_count = -1) :
    (levelUpdate s).level = GameLevel.two ∧ (levelUpdate s).score = 0 ∧
    (levelUpdate s).pitch_count = 10 ∧ (levelUpdate s).phase = s.phase := by
  unfold levelUpdate
  rw [stepGameOver_skip (l := GameLevel.one) (by simp [hl, hp]; omega),
    stepGameOver_skip (l := GameLevel.two) (by simp [hl]),
    stepGameOver_skip (l := GameLevel.three) (by simp [hl]),
    stepGameOver_skip (l := GameLevel.four) (by simp [hl]),
    show stepAdvance GameLevel.one GameLevel.two 3 (-1) s =
      { s with level := GameLevel.two, score := 0, pitch_count := 10 } from
      if_pos ⟨hl, hs, hp⟩,
    stepWin_skip (l := GameLevel.two) (by simp),
    stepAdvance_skip (l := GameLevel.three) (by simp),
    stepWin_skip (l := GameLevel.four) (by simp)]
  exact ⟨rfl, rfl, rfl, rfl⟩

/-- Evaluation of the frame update at level two with pitches exhausted
  and score at target: the phase becomes won and the level stays two. -/
lemma levelUpdate_two_won (s : GameProg) (hl : s.level = GameLevel.two)
    (hs : 5 ≤ s.score) (hp : s.pitch_count = -1) :
    (levelUpdate s).phase = GamePhase.game_won ∧
    (levelUpdate s).level = GameLevel.two := by
  unfold levelUpdate
  rw [stepGameOver_skip (l := GameLevel.one) (by simp [hl]),
    stepGameOver_skip (l := GameLevel.two) (by simp [hl, hp]; omega),
    stepGameOver_skip (l := GameLevel.three) (by simp [hl]),
    stepGameOver_skip (l := GameLevel.four) (by simp [hl]),
    stepAdvance_skip (l := GameLevel.one) (by simp [hl]),
    show stepWin GameLevel.two 5 s = { s with phase := GamePhase.game_won } from
      if_pos ⟨hl, hs, hp⟩,
    stepAdvance_skip (l := GameLevel.three) (by simp [hl]),
    stepWin_skip (l := GameLevel.four) (by simp [hl])]
  exact ⟨rfl, hl⟩

/-- Claim C2: for level one with target 3 and pitch budget 10: when
  pitch_count reaches -1 with score below 3 the phase becomes game-over;
  when pitch_count reaches -1 with score at least 3 the game advances to
  level two with score and pitch count reset to (0, 10); and in general,
  for every reachable state with pitches exhausted and score meeting the
  level target, the game advances to the next level (resetting score and
  pitch budget) or, for the final configured level (level two: the
  level-three advance is commented out in the source), the phase becomes
  won. -/
theorem C2_level_score_progression :
    (∀ s : GameProg, s.level = GameLevel.one → s.score < 3 → s.pitch_count = -1 →
      (levelUpdate s).phase = GamePhase.game_over) ∧
    (∀ s : GameProg, s.level = GameLevel.one → 3 ≤ s.score → s.pitch_count = -1 →
      (levelUpdate s).level = GameLevel.two ∧ (levelUpdate s).score = 0 ∧
      (levelUpdate s).pitch_count = 10 ∧ (levelUpdate s).phase = s.phase) ∧
    (∀ s : GameProg, GameReach s → s.pitch_count = -1 →
      levelTarget s.level ≤ s.score →
      ((s.level = GameLevel.one ∧ (levelUpdate s).level = GameLevel.two ∧
          (levelUpdate s).score = 0 ∧ (levelUpdate s).pitch_count = 10) ∨
        (s.level = GameLevel.two ∧ (levelUpdate s).phase = GamePhase.game_won))) := by
  refine ⟨?_, ?_, ?_⟩
  · intro s hl hs hp
    exact (levelUpdate_one_fail s hl hs hp).1
  · intro s hl hs hp
    exact levelUpdate_one_advance s hl hs hp
  · intro s hreach hp hs
    rcases gameReach_level hreach with hl | hl
    · left
      rw [hl] at hs
      have h := levelUpdate_one_advance s hl hs hp
      exact ⟨hl, h.1, h.2.1, h.2.2.1⟩
    · right
      rw [hl] at hs
      exact ⟨hl, (levelUpdate_two_won s hl hs hp).1⟩

/-- Witness for C2: the concrete scenario of the spec, starting from the
  constructor state after a start, ten consumed pitches, and two home
  runs: game over; and with three home runs: level two with (0, 10). -/
theorem C2_level_score_progression_witness :
    (levelUpdate ⟨GamePhase.started, GameLevel.one, 2, 3, -1⟩).phase =
      GamePhase.game_over ∧
    ((levelUpdate ⟨GamePhase.started, GameLevel.one, 3, 3, -1⟩).level =
        GameLevel.two ∧
      (levelUpdate ⟨GamePhase.started, GameLevel.one, 3, 3, -1⟩).score = 0 ∧
      (levelUpdate ⟨GamePhase.started, GameLevel.one, 3, 3, -1⟩).pitch_count = 10 ∧
      (levelUpdate ⟨GamePhase.started, GameLevel.one, 3, 3, -1⟩).phase =
        (⟨GamePhase.started, GameLevel.one, 3, 3, -1⟩ : GameProg).phase) :=
  ⟨C2_level_score_progression.1 ⟨GamePhase.started, GameLevel.one, 2, 3, -1⟩
      rfl (by norm_num) rfl,
    C2_level_score_progression.2.1 ⟨GamePhase.started, GameLevel.one, 3, 3, -1⟩
      rfl (by norm_num) rfl⟩

/-- Claim C9: in every state reachable from the initial game state or
  from a restart, the current game level is only ever level one or level
  two; the only enabled level-advance transition is from one to two;
  exhausting pitches on level two with score at least 5 sets the phase
  directly to won; and the transition that would assign level four is
  guarded on being at level three (with pitch count exactly 0), which no
  reachable state satisfies, so levels three and four are unreachable. -/
theorem C9_levels_three_four_unreachable :
    (∀ s : GameProg, GameReach s →
      s.level = GameLevel.one ∨ s.level = GameLevel.two) ∧
    (∀ s : GameProg, GameReach s →
      (levelUpdate s).level = s.level ∨
      (s.level = GameLevel.one ∧ (levelUpdate s).level = GameLevel.two)) ∧
    (∀ s : GameProg, s.level = GameLevel.two → 5 ≤ s.score → s.pitch_count = -1 →
      (levelUpdate s).phase = GamePhase.game_won ∧
      (levelUpdate s).level = GameLevel.two) ∧
    (∀ s : GameProg, GameReach s → s.level ≠ GameLevel.three ∧
      s.level ≠ GameLevel.four) := by
  refine ⟨fun s h => gameReach_level h, ?_, levelUpdate_two_won, ?_⟩
  · intro s h
    rcases levelUpdate_level s with h1 | h2 | h3
    · left; exact h1
    · right; exact h2
    · rcases gameReach_level h with hl | hl <;> rw [h3.1] at hl <;> simp at hl
  · intro s h
    rcases gameReach_level h with hl | hl <;> rw [hl] <;> simp

/-! ## Pitch spawning

  Embedding of the ball-spawn logic of Final_Project.display
  (src/main-scene.js lines 2346-2371) and of getRandomInt (lines 30-34).
  Math.random() is modelled by an input u with 0 <= u < 1; the scenery
  transform chain that places the pitcher (the baseball matrix at line
  2327) enters as the parameter ballPos. -/

/-- Rational 3-vectors with named components, as used by the game logic. -/
structure Vq3 where
  x : ℚ
  y : ℚ
  z : ℚ
deriving DecidableEq, Repr

/-- getRandomInt (lines 30-34): ceil the lower bound, floor the upper
  bound, then floor(u * (max - min)) + min for the random draw u. -/
def getRandomInt (u lo hi : ℚ) : ℤ :=
  ⌊u * ((⌊hi⌋ : ℚ) - (⌈lo⌉ : ℚ))⌋ + ⌈lo⌉

/-- The slice of the scene state read and written by the pitch logic. -/
structure PitchFrame where
  t : ℚ
  pitch_timer : ℚ
  pitch_time : Bool
  pitch_count : ℤ
  phase : GamePhase
  numBodies : ℕ
deriving DecidableEq, Repr

/-- The placement matrix and initial velocity handed to Body.emplace for
  a newly spawned ball (lines 2360-2370). -/
structure SpawnedBall where
  location : Mat4
  velocity : Vq3

/-- Lines 2346-2349: when a pitch event is pending and no ball is in
  play, record the current time as the pitch timer and clear the flag. -/
def pitchTimerStep (s : PitchFrame) : PitchFrame :=
  if s.pitch_time = true ∧ s.numBodies < 2 then
    { s with pitch_timer := s.t, pitch_time := false }
  else s

/-- Lines 2350-2371: when more than two seconds have passed since the
  pitch timer, fewer than two bodies are in play, pitches remain, and
  the game is started: clear the flag, decrement the pitch count, draw
  the speed and lateral offset, and push a ball whose velocity is
  (0.4 + xy, 0, speed), emplaced at the pitcher hand position. -/
def pitchSpawn (ballPos : Mat4) (u1 u2 : ℚ) (s : PitchFrame) :
    PitchFrame × Option SpawnedBall :=
  if s.t > s.pitch_timer + 2 ∧ s.numBodies < 2 ∧ s.pitch_count > -1 ∧
      s.phase = GamePhase.started then
    ({ s with
        pitch_time := false, pitch_count := s.pitch_count - 1,
        numBodies := s.numBodies + 1 },
      some ⟨ballPos * mat4Translation ![-3, -1, -7],
        ⟨0.4 + (getRandomInt u2 (-2) 3 : ℚ) * 0.3, 0,
          (getRandomInt u1 10 18 : ℚ)⟩⟩)
  else (s, none)

/-- The ball block of display in source order: the timer update followed
  by the guarded spawn. -/
def pitchStep (ballPos : Mat4) (u1 u2 : ℚ) (s : PitchFrame) :
    PitchFrame × Option SpawnedBall :=
  pitchSpawn ballPos u1 u2 (pitchTimerStep s)

/-- The state at the exact two-second boundary: timer at 0, clock at 2,
  one body (the bat), ten pitches, game started, no pending event. -/
def pitchBoundary : PitchFrame :=
  ⟨2, 0, false, 10, GamePhase.started, 1⟩

/-- The speed draw lands in [10, 18). -/
lemma getRandomInt_10_18 (u : ℚ) (h0 : 0 ≤ u) (h1 : u < 1) :
    10 ≤ getRandomInt u 10 18 ∧ getRandomInt u 10 18 < 18 := by
  unfold getRandomInt
  norm_num
  constructor
  · have h : (0 : ℚ) ≤ u * 8 := by positivity
    have := Int.floor_nonneg.mpr h
    omega
  · have h : u * 8 < ((8 : ℤ) : ℚ) := by push_cast; linarith
    have := Int.floor_lt.mpr h
    omega

/-- The lateral draw lands in [-2, 3), that is, in {-2, -1, 0, 1, 2}. -/
lemma getRandomInt_neg2_3 (u : ℚ) (h0 : 0 ≤ u) (h1 : u < 1) :
    -2 ≤ getRandomInt u (-2) 3 ∧ getRandomInt u (-2) 3 ≤ 2 := by
  unfold getRandomInt
  have hc : ⌈(-2 : ℚ)⌉ = -2 := by
    rw [show (-2 : ℚ) = ((-2 : ℤ) : ℚ) from by norm_num]
    exact Int.ceil_intCast _
  rw [hc, show ⌊(3 : ℚ)⌋ = 3 from by norm_num]
  norm_num
  constructor
  · have h : (0 : ℚ) ≤ u * 5 := by positivity
    have := Int.floor_nonneg.mpr h
    omega
  · have h : u * 5 < ((5 : ℤ) : ℚ) := by push_cast; linarith
    have := Int.floor_lt.mpr h
    omega

/-- The timer block does not touch the pitch count, the clock, the body
  count, or the phase. -/
lemma pitchTimerStep_fields (s : PitchFrame) :
    (pitchTimerStep s).pitch_count = s.pitch_count ∧
    (pitchTimerStep s).t = s.t ∧
    (pitchTimerStep s).numBodies = s.numBodies ∧
    (pitchTimerStep s).phase = s.phase := by
  unfold pitchTimerStep
  split_ifs <;> exact ⟨rfl, rfl, rfl, rfl⟩

/-- What a successful spawn produces. -/
lemma pitchSpawn_some (ballPos : Mat4) (u1 u2 : ℚ) (s : PitchFrame)
    (sb : SpawnedBall) (h : (pitchSpawn ballPos u1 u2 s).2 = some sb) :
    (pitchSpawn ballPos u1 u2 s).1.pitch_count = s.pitch_count - 1 ∧
    sb.location = ballPos * mat4Translation ![-3, -1, -7] ∧
    sb.velocity = ⟨0.4 + (getRandomInt u2 (-2) 3 : ℚ) * 0.3, 0,
      (getRandomInt u1 10 18 : ℚ)⟩ := by
  unfold pitchSpawn at h ⊢
  by_cases hg : s.t > s.pitch_timer + 2 ∧ s.numBodies < 2 ∧
      s.pitch_count > -1 ∧ s.phase = GamePhase.started
  · rw [if_pos hg] at h ⊢
    simp only [Option.some.injEq] at h
    subst h
    exact ⟨rfl, rfl, rfl⟩
  · rw [if_neg hg] at h
    simp at h

/-- Claim C6 (amended): a new ball body is spawned exactly when no ball
  is active, strictly more than 2 simulated seconds have elapsed since
  the last pitch event, pitches-remaining is greater than -1, and the
  game phase is started; the spawn decrements pitches-remaining by 1 and
  gives the ball an initial velocity whose forward (z) speed is a
  uniformly drawn integer in [10, 18) and whose lateral component is
  offset by a uniform integer draw from {-2, -1, 0, 1, 2} times 0.3,
  launched from the pitcher hand position.  The last conjunct exhibits
  the uniformity of the speed draw: each outcome corresponds to an
  equal-length subinterval of the random source. -/
theorem C6_pitch_spawn (ballPos : Mat4) (u1 u2 : ℚ) (s : PitchFrame)
    (hu1 : 0 ≤ u1) (hu1b : u1 < 1) (hu2 : 0 ≤ u2) (hu2b : u2 < 1) :
    (¬(s.pitch_time = true ∧ s.numBodies < 2) →
      ((pitchStep ballPos u1 u2 s).2.isSome = true ↔
        (s.t > s.pitch_timer + 2 ∧ s.numBodies < 2 ∧ s.pitch_count > -1 ∧
          s.phase = GamePhase.started))) ∧
    ((s.pitch_time = true ∧ s.numBodies < 2) →
      (pitchStep ballPos u1 u2 s).2 = none) ∧
    (∀ sb : SpawnedBall, (pitchStep ballPos u1 u2 s).2 = some sb →
      (pitchStep ballPos u1 u2 s).1.pitch_count = s.pitch_count - 1 ∧
      sb.location = ballPos * mat4Translation ![-3, -1, -7] ∧
      ∃ q k : ℤ, 10 ≤ q ∧ q < 18 ∧ -2 ≤ k ∧ k ≤ 2 ∧
        sb.velocity = ⟨0.4 + (k : ℚ) * 0.3, 0, (q : ℚ)⟩) ∧
    (∀ k : ℤ, getRandomInt u1 10 18 = 10 + k ↔
      ((k : ℚ) ≤ u1 * 8 ∧ u1 * 8 < (k : ℚ) + 1)) := by
  refine ⟨?_, ?_, ?_, ?_⟩
  · intro hnt
    unfold pitchStep
    rw [show pitchTimerStep s = s from if_neg hnt]
    unfold pitchSpawn
    by_cases hg : s.t > s.pitch_timer + 2 ∧ s.numBodies < 2 ∧
        s.pitch_count > -1 ∧ s.phase = GamePhase.started
    · rw [if_pos hg]
      simpa using hg
    · rw [if_neg hg]
      simpa using hg
  · intro hpt
    unfold pitchStep
    rw [show pitchTimerStep s = { s with pitch_timer := s.t, pitch_time := false }
        from if_pos hpt]
    unfold pitchSpawn
    rw [if_neg (by intro h; have := h.1; simp at this; linarith)]
  · intro sb hsb
    unfold pitchStep at hsb ⊢
    obtain ⟨hc, hl, hv⟩ := pitchSpawn_some ballPos u1 u2 (pitchTimerStep s) sb hsb
    refine ⟨by rw [hc, (pitchTimerStep_fields s).1], hl, ?_⟩
    obtain ⟨hq1, hq2⟩ := getRandomInt_10_18 u1 hu1 hu1b
    obtain ⟨hk1, hk2⟩ := getRandomInt_neg2_3 u2 hu2 hu2b
    exact ⟨getRandomInt u1 10 18, getRandomInt u2 (-2) 3,
      hq1, hq2, hk1, hk2, hv⟩
  · intro k
    unfold getRandomInt
    norm_num
    constructor
    · intro h
      have hf : ⌊u1 * 8⌋ = k := by omega
      rw [Int.floor_eq_iff] at hf
      refine ⟨hf.1, ?_⟩
      have := hf.2
      push_cast at this ⊢
      linarith
    · intro h
      have hf : ⌊u1 * 8⌋ = k := by
        rw [Int.floor_eq_iff]
        refine ⟨h.1, ?_⟩
        have := h.2
        push_cast at this ⊢
        linarith
      omega

/-- Witness for C6: from a state three seconds past the timer with one
  body, ten pitches and the game started, a pitch does spawn. -/
theorem C6_pitch_spawn_witness :
    (pitchStep 1 0 0 ⟨3, 0, false, 10, GamePhase.started, 1⟩).2.isSome = true ↔
      ((3 : ℚ) > 0 + 2 ∧ 1 < 2 ∧ (10 : ℤ) > -1 ∧
        GamePhase.started = GamePhase.started) :=
  (C6_pitch_spawn 1 0 0 ⟨3, 0, false, 10, GamePhase.started, 1⟩
    le_rfl (by norm_num) le_rfl (by norm_num)).1 (by simp)

/-- Counterexample to C6 as stated: at exactly two elapsed seconds since
  the pitch timer, with no ball active, pitches remaining and the game
  started, the source guard (strict inequality at line 2351) does not
  fire, so no ball is spawned although at least 2 seconds have
  elapsed. -/
theorem C6_pitch_spawn_counterexample :
    pitchBoundary.t - pitchBoundary.pitch_timer ≥ 2 ∧
    pitchBoundary.numBodies < 2 ∧
    pitchBoundary.pitch_count > -1 ∧
    pitchBoundary.phase = GamePhase.started ∧
    (pitchStep 1 0 0 pitchBoundary).2.isSome = false := by
  refine ⟨by norm_num [pitchBoundary], by norm_num [pitchBoundary],
    by norm_num [pitchBoundary], rfl, ?_⟩
  unfold pitchStep
  rw [show pitchTimerStep pitchBoundary = pitchBoundary from if_neg (by
    intro h; exact absurd h.1 (by norm_num [pitchBoundary]))]
  unfold pitchSpawn
  rw [if_neg (by intro h; have := h.1; norm_num [pitchBoundary] at this)]
  rfl

/-- Witness for C9: the initial state is at level one, and a restarted
  exhausted level-two state with five home runs wins. -/
theorem C9_levels_three_four_unreachable_witness :
    (initGame.level = GameLevel.one ∨ initGame.level = GameLevel.two) ∧
    ((levelUpdate ⟨GamePhase.started, GameLevel.two, 5, 5, -1⟩).phase =
        GamePhase.game_won ∧
      (levelUpdate ⟨GamePhase.started, GameLevel.two, 5, 5, -1⟩).level =
        GameLevel.two) ∧
    (initGame.level ≠ GameLevel.three ∧ initGame.level ≠ GameLevel.four) :=
  ⟨C9_levels_three_four_unreachable.1 initGame GameReach.init,
    C9_levels_three_four_unreachable.2.2.1 ⟨GamePhase.started, GameLevel.two, 5, 5, -1⟩
      rfl (by norm_num) rfl,
    C9_levels_three_four_unreachable.2.2.2 initGame GameReach.init⟩

/-! ## Per-tick ball physics

  Embedding of Baseball.update_state (src/main-scene.js lines
  2492-2581).  Norm comparisons of the source (center.norm() < c with c
  nonnegative) are expressed through the squared norm, an equivalent
  rational formulation.  The geometric collision loop of lines 2496-2511
  is the pairwise check_if_colliding test over the drawn poses; its
  outcome for the tick enters as the oracle input collided, and its
  effects (mark ball_hit, zero the angular velocity of the struck ball)
  are translated directly.  The random vertical boost of line 2520
  (floor(random()*21) + 10, a draw in [10, 31)) enters as the input
  boost. -/

/-- Squared euclidean norm of a rational 3-vector. -/
def Vq3.normSq (v : Vq3) : ℚ := v.x * v.x + v.y * v.y + v.z * v.z

/-- The comparison v.norm() < c of the source for a nonnegative
  threshold c, stated on squared values to stay inside the rationals. -/
def normLtB (v : Vq3) (c : ℚ) : Bool := decide (Vq3.normSq v < c * c)

/-- The kinematic fields of one body read by update_state. -/
structure BBody where
  center : Vq3
  linear_velocity : Vq3
  angular_velocity : ℚ
deriving DecidableEq, Repr

/-- The slice of the scene state read and written by update_state. -/
structure TickState where
  bodies : List BBody
  ball_hit : Bool
  ball_bounced : Bool
  game_score : ℕ
  pitch_time : Bool
deriving DecidableEq, Repr

/-- Lines 2529-2547: if the ball is below -9.7 and still descending,
  mark the first bounce and judge the home run (increment the score iff
  abs x < 150 and abs z > 160 - abs x), then dampen the velocities
  (x 0.6, y -0.6, z 0.6) and the angular velocity (0.5) on every
  bounce. -/
def bounceStep (ball : BBody) (bounced : Bool) (score : ℕ) :
    BBody × Bool × ℕ :=
  if ball.center.y < -9.7 ∧ ball.linear_velocity.y < 0 then
    let r : Bool × ℕ :=
      if bounced = false then
        (true,
          if |ball.center.x| < 150 ∧ |ball.center.z| > 160 - |ball.center.x| then
            score + 1
          else score)
      else (bounced, score)
    ({ ball with
        linear_velocity :=
          ⟨ball.linear_velocity.x * 0.6, ball.linear_velocity.y * (-0.6),
            ball.linear_velocity.z * 0.6⟩,
        angular_velocity := ball.angular_velocity * 0.5 }, r.1, r.2)
  else (ball, bounced, score)

/-- Lines 2549-2550: once the speed is below 2 and the height below
  -9.7, zero the vertical velocity. -/
def settleZeroY (ball : BBody) : BBody :=
  if normLtB ball.linear_velocity 2 = true ∧ ball.center.y < -9.7 then
    { ball with linear_velocity := { ball.linear_velocity with y := 0 } }
  else ball

/-- Lines 2517-2551, the body of the ball_hit branch: while the forward
  velocity is still positive, re-derive the lateral and forward
  velocities from the position and add the random vertical boost; then
  integrate gravity, run the bounce judgment, and zero the vertical
  velocity when settling. -/
def hitBall (dt : ℚ) (boost : ℤ) (ball : BBody) (bounced : Bool)
    (score : ℕ) : BBody × Bool × ℕ :=
  let b1 :=
    if ball.linear_velocity.z > 0 then
      { ball with
        linear_velocity :=
          ⟨(ball.center.z + 1) * 5,
            ball.linear_velocity.y + (boost : ℚ),
            ball.linear_velocity.z * (-(min 3.6 (|ball.center.z| * 3)))⟩ }
    else ball
  let b2 := { b1 with
    linear_velocity := { b1.linear_velocity with
      y := b1.linear_velocity.y + dt * (-9.8) } }
  let r := bounceStep b2 bounced score
  (settleZeroY r.1, r.2.1, r.2.2)

/-- Baseball.update_state (lines 2492-2581): the collision phase, then,
  when a ball is present (bodies length above 1, bat at index 0 and ball
  at index 1), the post-hit physics, the range filters (300 after a hit,
  with pitch_time raised when a body remains in range; 40 before a hit),
  and the settle-and-retire checks. -/
def update_state (dt : ℚ) (boost : ℤ) (collided : Bool) (s : TickState) :
    TickState :=
  let s :=
    if s.ball_hit = false ∧ collided = true then
      { s with
        ball_hit := true,
        bodies :=
          match s.bodies with
          | bat :: ball :: rest =>
              bat :: { ball with angular_velocity := 0 } :: rest
          | l => l }
    else s
  match s.bodies with
  | bat :: ball :: rest =>
      let r := if s.ball_hit = true then
          hitBall dt boost ball s.ball_bounced s.game_score
        else (ball, s.ball_bounced, s.game_score)
      let bodies := bat :: r.1 :: rest
      let ptime := if s.ball_hit = true then
          (s.pitch_time || bodies.any fun b => normLtB b.center 300)
        else s.pitch_time
      let bodies := if s.ball_hit = true then
          bodies.filter fun b => normLtB b.center 300
        else bodies.filter fun b => normLtB b.center 40
      if bodies.length < 2 then
        ⟨bodies, false, false, r.2.2, ptime⟩
      else if |r.1.linear_velocity.x| < 0.5 ∧ |r.1.linear_velocity.y| < 0.5 ∧
          |r.1.linear_velocity.z| < 0.5 then
        ⟨bodies.dropLast, false, false, r.2.2, ptime⟩
      else
        ⟨bodies, s.ball_hit, r.2.1, r.2.2, ptime⟩
  | _ => s

/-- A hit ball bouncing at the far boundary point (0, 161). -/
def ballFar : BBody := ⟨⟨0, -10, 161⟩, ⟨1, -1, 1⟩, 1⟩

/-- A hit ball bouncing short of the fence at (0, 159). -/
def ballShort : BBody := ⟨⟨0, -10, 159⟩, ⟨1, -1, 1⟩, 1⟩

/-- A hit ball bouncing wide at (151, 200). -/
def ballWide : BBody := ⟨⟨151, -10, 200⟩, ⟨1, -1, 1⟩, 1⟩

/-- The bat body at rest near the origin. -/
def batRest : BBody := ⟨⟨0, 0, 0⟩, ⟨0, 0, 0⟩, 0⟩

/-- A hit ball that has almost stopped rolling on the ground. -/
def ballSettled : BBody := ⟨⟨0, -9.9, 100⟩, ⟨0.1, -0.2, -0.1⟩, 0⟩

/-- A tick state holding the bat and the almost-stopped hit ball. -/
def tickSettled : TickState := ⟨[batRest, ballSettled], true, true, 2, false⟩

/-- The physics of the hit branch never moves the ball within the tick:
  only the velocities change (the integrator moves centers afterwards,
  in Body.advance). -/
lemma hitBall_center (dt : ℚ) (boost : ℤ) (ball : BBody) (bounced : Bool)
    (score : ℕ) : (hitBall dt boost ball bounced score).1.center = ball.center := by
  unfold hitBall settleZeroY bounceStep
  dsimp only
  split_ifs <;> rfl

/-- Claim C3: the first time a hit ball is below -9.7 and descending,
  ball_bounced is set true, and it is set exactly once per flight (a
  later bounce with ball_bounced already true leaves the score and the
  flag unchanged); the score increments by one exactly when
  abs x < 150 and abs z > 160 - abs x at that point; every bounce
  dampens the velocities by (0.6, -0.6, 0.6) and the angular velocity by
  0.5.  A ball bouncing at (0, 161) scores, at (0, 159) does not, and at
  (151, 200) does not. -/
theorem C3_bounce_home_run_judgment :
    (∀ (ball : BBody) (bounced : Bool) (score : ℕ),
      ball.center.y < -9.7 → ball.linear_velocity.y < 0 →
      ((bounceStep ball false score).2.1 = true ∧
        ((bounceStep ball false score).2.2 = score + 1 ↔
          (|ball.center.x| < 150 ∧ |ball.center.z| > 160 - |ball.center.x|)) ∧
        ((bounceStep ball false score).2.2 = score ↔
          ¬(|ball.center.x| < 150 ∧ |ball.center.z| > 160 - |ball.center.x|)) ∧
        (bounceStep ball true score).2.1 = true ∧
        (bounceStep ball true score).2.2 = score ∧
        (bounceStep ball bounced score).1.linear_velocity =
          ⟨ball.linear_velocity.x * 0.6, ball.linear_velocity.y * (-0.6),
            ball.linear_velocity.z * 0.6⟩ ∧
        (bounceStep ball bounced score).1.angular_velocity =
          ball.angular_velocity * 0.5)) ∧
    (bounceStep ballFar false 0).2.2 = 1 ∧
    (bounceStep ballShort false 0).2.2 = 0 ∧
    (bounceStep ballWide false 0).2.2 = 0 := by
  refine ⟨?_, ?_, ?_, ?_⟩
  · intro ball bounced score hy hv
    have hcond : ball.center.y < -9.7 ∧ ball.linear_velocity.y < 0 := ⟨hy, hv⟩
    have hfull : bounceStep ball false score =
        ({ ball with
            linear_velocity :=
              ⟨ball.linear_velocity.x * 0.6, ball.linear_velocity.y * (-0.6),
                ball.linear_velocity.z * 0.6⟩,
            angular_velocity := ball.angular_velocity * 0.5 }, true,
          if |ball.center.x| < 150 ∧ |ball.center.z| > 160 - |ball.center.x| then
            score + 1
          else score) := by
      unfold bounceStep
      rw [if_pos hcond, if_pos (show (false : Bool) = false from rfl)]
    have htrue : bounceStep ball true score =
        ({ ball with
            linear_velocity :=
              ⟨ball.linear_velocity.x * 0.6, ball.linear_velocity.y * (-0.6),
                ball.linear_velocity.z * 0.6⟩,
            angular_velocity := ball.angular_velocity * 0.5 }, true, score) := by
      unfold bounceStep
      rw [if_pos hcond, if_neg (show ¬((true : Bool) = false) from by simp)]
    have hone : (bounceStep ball bounced score).1 =
        { ball with
          linear_velocity :=
            ⟨ball.linear_velocity.x * 0.6, ball.linear_velocity.y * (-0.6),
              ball.linear_velocity.z * 0.6⟩,
          angular_velocity := ball.angular_velocity * 0.5 } := by
      unfold bounceStep
      rw [if_pos hcond]
    refine ⟨by rw [hfull], ?_, ?_, by rw [htrue], by rw [htrue],
      by rw [hone], by rw [hone]⟩
    · rw [hfull]
      dsimp only
      by_cases hP : |ball.center.x| < 150 ∧
          |ball.center.z| > 160 - |ball.center.x|
      · rw [if_pos hP]
        simp [hP]
      · rw [if_neg hP]
        constructor
        · intro h
          exact absurd h (by omega)
        · intro h
          exact absurd h hP
    · rw [hfull]
      dsimp only
      by_cases hP : |ball.center.x| < 150 ∧
          |ball.center.z| > 160 - |ball.center.x|
      · rw [if_pos hP]
        constructor
        · intro h
          exact absurd h (by omega)
        · intro h
          exact absurd hP h
      · rw [if_neg hP]
        simp [hP]
  · have h161 : |(161 : ℚ)| = 161 := abs_of_nonneg (by norm_num)
    norm_num [bounceStep, ballFar, h161]
  · have h159 : |(159 : ℚ)| = 159 := abs_of_nonneg (by norm_num)
    norm_num [bounceStep, ballShort, h159]
  · have h151 : |(151 : ℚ)| = 151 := abs_of_nonneg (by norm_num)
    have h200 : |(200 : ℚ)| = 200 := abs_of_nonneg (by norm_num)
    norm_num [bounceStep, ballWide, h151, h200]

/-- Witness for C3: the far bounce marks the first bounce, scores, and
  dampens the velocities. -/
theorem C3_bounce_home_run_judgment_witness :
    (bounceStep ballFar false 0).2.1 = true ∧
    ((bounceStep ballFar false 0).2.2 = 0 + 1 ↔
      (|ballFar.center.x| < 150 ∧
        |ballFar.center.z| > 160 - |ballFar.center.x|)) ∧
    ((bounceStep ballFar false 0).2.2 = 0 ↔
      ¬(|ballFar.center.x| < 150 ∧
        |ballFar.center.z| > 160 - |ballFar.center.x|)) ∧
    (bounceStep ballFar true 0).2.1 = true ∧
    (bounceStep ballFar true 0).2.2 = 0 ∧
    (bounceStep ballFar false 0).1.linear_velocity =
      ⟨ballFar.linear_velocity.x * 0.6, ballFar.linear_velocity.y * (-0.6),
        ballFar.linear_velocity.z * 0.6⟩ ∧
    (bounceStep ballFar false 0).1.angular_velocity =
      ballFar.angular_velocity * 0.5 :=
  C3_bounce_home_run_judgment.1 ballFar false 0 (by norm_num [ballFar])
    (by norm_num [ballFar])

/-- Claim C7: for a hit ball, once its speed is below 2 and its height
  below -9.7, its vertical velocity is zeroed; and once all three
  velocity components (as read by the settle check, after the gravity,
  bounce and zeroing updates of the tick) are under 0.5 in magnitude,
  ball_hit and ball_bounced are cleared and the ball body is removed
  from the active bodies list by that update_state call, returning the
  machine to the idle state. -/
theorem C7_settle_and_retire :
    (∀ ball : BBody, Vq3.normSq ball.linear_velocity < 2 * 2 →
      ball.center.y < -9.7 →
      (settleZeroY ball).linear_velocity =
        ⟨ball.linear_velocity.x, 0, ball.linear_velocity.z⟩) ∧
    (∀ (dt : ℚ) (boost : ℤ) (collided : Bool) (bat ball : BBody)
      (bounced : Bool) (score : ℕ) (ptime : Bool),
      normLtB bat.center 300 = true → normLtB ball.center 300 = true →
      (|(hitBall dt boost ball bounced score).1.linear_velocity.x| < 0.5 ∧
        |(hitBall dt boost ball bounced score).1.linear_velocity.y| < 0.5 ∧
        |(hitBall dt boost ball bounced score).1.linear_velocity.z| < 0.5) →
      (update_state dt boost collided
        ⟨[bat, ball], true, bounced, score, ptime⟩).bodies = [bat] ∧
      (update_state dt boost collided
        ⟨[bat, ball], true, bounced, score, ptime⟩).ball_hit = false ∧
      (update_state dt boost collided
        ⟨[bat, ball], true, bounced, score, ptime⟩).ball_bounced = false) := by
  constructor
  · intro ball hn hy
    unfold settleZeroY
    rw [if_pos ⟨by simp [normLtB]; exact hn, hy⟩]
  · intro dt boost collided bat ball bounced score ptime hbat hball hsmall
    have hrc : (hitBall dt boost ball bounced score).1.center = ball.center :=
      hitBall_center dt boost ball bounced score
    have hr1 : normLtB (hitBall dt boost ball bounced score).1.center 300 = true := by
      rw [hrc]; exact hball
    unfold update_state
    rw [if_neg (by simp)]
    simp only []
    simp only [if_true]
    simp only [List.filter_cons_of_pos, List.filter_nil, hbat, hr1]
    rw [if_neg (by simp), if_pos hsmall]
    exact ⟨rfl, rfl, rfl⟩

/-- Witness for C7: the concrete almost-stopped ball is retired and the
  flags are cleared. -/
theorem C7_settle_and_retire_witness :
    (update_state (1 / 20) 10 false
      ⟨[batRest, ballSettled], true, true, 2, false⟩).bodies = [batRest] ∧
    (update_state (1 / 20) 10 false
      ⟨[batRest, ballSettled], true, true, 2, false⟩).ball_hit = false ∧
    (update_state (1 / 20) 10 false
      ⟨[batRest, ballSettled], true, true, 2, false⟩).ball_bounced = false :=
  C7_settle_and_retire.2 (1 / 20) 10 false batRest ballSettled true 2 false
    (by norm_num [normLtB, Vq3.normSq, batRest])
    (by norm_num [normLtB, Vq3.normSq, ballSettled])
    (by norm_num [hitBall, bounceStep, settleZeroY, normLtB, Vq3.normSq,
      ballSettled, abs_lt])

end BruinBall
